import Mathlib

/-!
# ESP-Watering: the compile-time defaults of `ESP-Watering/defaults.h`

The header is a list of object-like `#define` directives, each binding one
macro name to one literal (a C string literal or a decimal integer literal).
The embedding keeps both views of it:

* every macro is a Lean constant of the same name, holding the literal the
  preprocessor substitutes for it (`String` for string literals, `Int` for
  integer literals, which C types as `int`);
* `defaults_h` is the header itself, the directives in source order, as a
  table from macro name to replacement literal.
-/

namespace ESPWatering

/-! ## Literals -/

/-- Replacement text of an object-like macro of `defaults.h`: a string literal
or a decimal integer literal. -/
inductive Literal where
  | str (s : String)
  | int (n : Int)
  deriving DecidableEq, Repr

/-! ## MQTT default settings (defaults.h, lines 7-9) -/

/-- Directive `#define DEFAULT_MQTT_HOST "mqtt.host"`. -/
def DEFAULT_MQTT_HOST : String := "mqtt.host"

/-- Directive `#define DEFAULT_MQTT_USER "mqtt.user"`. -/
def DEFAULT_MQTT_USER : String := "mqtt.user"

/-- Directive `#define DEFAULT_MQTT_PASS "mqtt.pass"`. -/
def DEFAULT_MQTT_PASS : String := "mqtt.pass"

/-! ## Other default settings (defaults.h, lines 12-15) -/

/-- Directive `#define DEFAULT_MAX_WATER_TIME 300`: default maximum watering time. -/
def DEFAULT_MAX_WATER_TIME : Int := 300

/-- Directive `#define DEFAULT_DEVICE_PREFIX "watering_"`: device ID prefix. -/
def DEFAULT_DEVICE_PREFIX : String := "watering_"

/-- Directive `#define DEFAULT_WATER_SUFFIX ""`: water topic suffix. -/
def DEFAULT_WATER_SUFFIX : String := ""

/-- Directive `#define MQTT_PORT 1883`: standard MQTT port. -/
def MQTT_PORT : Int := 1883

/-! ## WiFi configuration portal (defaults.h, lines 18-20) -/

/-- Directive `#define WIFI_AP_NAME "ESP-Watering"`: WiFi access point name. -/
def WIFI_AP_NAME : String := "ESP-Watering"

/-- Directive `#define WIFI_AP_PASS ""`: WiFi access point password (empty = no password). -/
def WIFI_AP_PASS : String := ""

/-- Directive `#define WIFI_PORTAL_TIMEOUT 60`: configuration portal timeout (seconds). -/
def WIFI_PORTAL_TIMEOUT : Int := 60

/-! ## NTP settings (defaults.h, lines 23-24) -/

/-- Directive `#define NTP_SERVER "time.nist.gov"`: NTP server. -/
def NTP_SERVER : String := "time.nist.gov"

/-- Directive `#define NTP_UPDATE_INTERVAL 28800000`: NTP update interval. -/
def NTP_UPDATE_INTERVAL : Int := 28800000

/-! ## System settings (defaults.h, lines 27-28) -/

/-- Directive `#define SERIAL_BAUD_RATE 115200`: serial port baud rate. -/
def SERIAL_BAUD_RATE : Int := 115200

/-- Directive `#define LONG_CLICK_TIME 5000`: long button press time (ms). -/
def LONG_CLICK_TIME : Int := 5000

/-! ## The header as a table of directives -/

/-- The `#define` directives of `defaults.h`, in source order: macro name and
replacement literal. -/
def defaults_h : List (String × Literal) :=
  [ ("DEFAULT_MQTT_HOST", .str DEFAULT_MQTT_HOST),
    ("DEFAULT_MQTT_USER", .str DEFAULT_MQTT_USER),
    ("DEFAULT_MQTT_PASS", .str DEFAULT_MQTT_PASS),
    ("DEFAULT_MAX_WATER_TIME", .int DEFAULT_MAX_WATER_TIME),
    ("DEFAULT_DEVICE_PREFIX", .str DEFAULT_DEVICE_PREFIX),
    ("DEFAULT_WATER_SUFFIX", .str DEFAULT_WATER_SUFFIX),
    ("MQTT_PORT", .int MQTT_PORT),
    ("WIFI_AP_NAME", .str WIFI_AP_NAME),
    ("WIFI_AP_PASS", .str WIFI_AP_PASS),
    ("WIFI_PORTAL_TIMEOUT", .int WIFI_PORTAL_TIMEOUT),
    ("NTP_SERVER", .str NTP_SERVER),
    ("NTP_UPDATE_INTERVAL", .int NTP_UPDATE_INTERVAL),
    ("SERIAL_BAUD_RATE", .int SERIAL_BAUD_RATE),
    ("LONG_CLICK_TIME", .int LONG_CLICK_TIME) ]

/-- The macro names the header defines, in source order. -/
def definedNames : List String := defaults_h.map Prod.fst

/-- Macro expansion: the literal substituted for a name, if the header defines
it (the first directive for the name, as a lookup in the table). -/
def expand (name : String) : Option Literal := defaults_h.lookup name

/-- The directives of a table whose replacement is an integer literal, with
the integer. -/
def intDefines : List (String × Literal) → List (String × Int)
  | [] => []
  | (n, .int v) :: rest => (n, v) :: intDefines rest
  | (_, .str _) :: rest => intDefines rest

/-! ## Helper lemmas -/

/-- In a table whose keys are pairwise distinct, a key is bound to at most one
value. -/
theorem value_unique_of_nodup_keys {α β : Type} :
    ∀ (l : List (α × β)), (l.map Prod.fst).Nodup →
      ∀ (k : α) (v w : β), (k, v) ∈ l → (k, w) ∈ l → v = w
  | [], _, _, _, _, hv, _ => by cases hv
  | (a, b) :: rest, hnd, k, v, w, hv, hw => by
      rw [List.map_cons, List.nodup_cons] at hnd
      obtain ⟨hnot, hrest⟩ := hnd
      rcases List.mem_cons.mp hv with hv | hv <;> rcases List.mem_cons.mp hw with hw | hw
      · cases hv; cases hw; rfl
      · cases hv
        exact absurd (List.mem_map_of_mem Prod.fst hw) hnot
      · cases hw
        exact absurd (List.mem_map_of_mem Prod.fst hv) hnot
      · exact value_unique_of_nodup_keys rest hrest k v w hv hw

/-- A successful lookup returns a binding of the table. -/
theorem mem_of_lookup {α β : Type} [BEq α] [LawfulBEq α] :
    ∀ (l : List (α × β)) (k : α) (v : β), l.lookup k = some v → (k, v) ∈ l
  | [], _, _, h => by simp [List.lookup] at h
  | (a, b) :: rest, k, v, h => by
      by_cases hka : k = a
      · subst hka
        simp [List.lookup] at h
        subst h
        exact List.mem_cons_self _ _
      · have hne : (k == a) = false := by simpa using hka
        rw [List.lookup, hne] at h
        exact List.mem_cons_of_mem _ (mem_of_lookup rest k v h)

/-- In a table whose keys are pairwise distinct, lookup finds every binding. -/
theorem lookup_of_mem_of_nodup_keys {α β : Type} [BEq α] [LawfulBEq α] :
    ∀ (l : List (α × β)), (l.map Prod.fst).Nodup →
      ∀ (k : α) (v : β), (k, v) ∈ l → l.lookup k = some v
  | [], _, _, _, h => by cases h
  | (a, b) :: rest, hnd, k, v, h => by
      rw [List.map_cons, List.nodup_cons] at hnd
      obtain ⟨hnot, hrest⟩ := hnd
      rcases List.mem_cons.mp h with hhead | htail
      · cases hhead
        simp [List.lookup]
      · have hka : k ≠ a := by
          intro hka
          rw [hka] at htail
          exact absurd (List.mem_map_of_mem Prod.fst htail) hnot
        have hne : (k == a) = false := by simpa using hka
        rw [List.lookup, hne]
        exact lookup_of_mem_of_nodup_keys rest hrest k v htail

theorem definedNames_eq :
    definedNames =
      ["DEFAULT_MQTT_HOST", "DEFAULT_MQTT_USER", "DEFAULT_MQTT_PASS",
       "DEFAULT_MAX_WATER_TIME", "DEFAULT_DEVICE_PREFIX", "DEFAULT_WATER_SUFFIX",
       "MQTT_PORT", "WIFI_AP_NAME", "WIFI_AP_PASS", "WIFI_PORTAL_TIMEOUT",
       "NTP_SERVER", "NTP_UPDATE_INTERVAL", "SERIAL_BAUD_RATE", "LONG_CLICK_TIME"] := rfl

theorem definedNames_nodup : definedNames.Nodup := by
  rw [definedNames_eq]
  decide

/-! ## The configuration contract -/

/-- C1: the compiled defaults are the ones a default-only device uses: the
access point is named "ESP-Watering", the MQTT broker is "mqtt.host" on port
1883, and a watering actuation is capped at 300 seconds; the header binds the
four macro names to exactly these literals. -/
theorem C1_defaults_exact :
    WIFI_AP_NAME = "ESP-Watering" ∧ DEFAULT_MQTT_HOST = "mqtt.host" ∧
      MQTT_PORT = 1883 ∧ DEFAULT_MAX_WATER_TIME = 300 ∧
      expand "WIFI_AP_NAME" = some (.str "ESP-Watering") ∧
      expand "DEFAULT_MQTT_HOST" = some (.str "mqtt.host") ∧
      expand "MQTT_PORT" = some (.int 1883) ∧
      expand "DEFAULT_MAX_WATER_TIME" = some (.int 300) := by
  refine ⟨rfl, rfl, rfl, rfl, ?_, ?_, ?_, ?_⟩ <;>
    simp [expand, defaults_h, List.lookup, WIFI_AP_NAME, DEFAULT_MQTT_HOST, MQTT_PORT,
      DEFAULT_MAX_WATER_TIME]

/-- C2 as stated fails: the MQTT password, the water topic suffix and the
access-point password are not all three the empty string, because the default
MQTT password is the nine-character placeholder "mqtt.pass". -/
theorem C2_not_all_empty :
    ¬ (DEFAULT_MQTT_PASS = "" ∧ DEFAULT_WATER_SUFFIX = "" ∧ WIFI_AP_PASS = "") := by
  intro h
  exact absurd h.1 (by decide)

/-- C2 amended: the water topic suffix and the access-point password are each
the empty string, of length 0, while the default MQTT password is the
placeholder "mqtt.pass", of length 9. -/
theorem C2_empty_defaults :
    DEFAULT_WATER_SUFFIX = "" ∧ DEFAULT_WATER_SUFFIX.length = 0 ∧
      WIFI_AP_PASS = "" ∧ WIFI_AP_PASS.length = 0 ∧
      DEFAULT_MQTT_PASS = "mqtt.pass" ∧ DEFAULT_MQTT_PASS.length = 9 ∧
      expand "DEFAULT_WATER_SUFFIX" = some (.str "") ∧
      expand "WIFI_AP_PASS" = some (.str "") ∧
      expand "DEFAULT_MQTT_PASS" = some (.str "mqtt.pass") := by
  refine ⟨rfl, by decide, rfl, by decide, rfl, by decide, ?_, ?_, ?_⟩ <;>
    simp [expand, defaults_h, List.lookup, DEFAULT_WATER_SUFFIX, WIFI_AP_PASS,
      DEFAULT_MQTT_PASS]

/-- C3: each of the four duration constants is strictly positive: the maximum
watering time, the portal timeout, the NTP update interval and the long-click
time. -/
theorem C3_durations_positive :
    0 < DEFAULT_MAX_WATER_TIME ∧ 0 < WIFI_PORTAL_TIMEOUT ∧
      0 < NTP_UPDATE_INTERVAL ∧ 0 < LONG_CLICK_TIME := by
  refine ⟨?_, ?_, ?_, ?_⟩ <;> decide

/-- C4: the MQTT port is a valid TCP port, between 1 and 65535, so reducing it
to an unsigned 16-bit field leaves it unchanged, and it is the standard MQTT
port 1883. -/
theorem C4_mqtt_port_valid :
    1 ≤ MQTT_PORT ∧ MQTT_PORT ≤ 65535 ∧ MQTT_PORT % 2 ^ 16 = MQTT_PORT ∧
      MQTT_PORT = 1883 := by
  refine ⟨?_, ?_, ?_, rfl⟩ <;> decide

/-- C5: the serial baud rate is one of the standard UART rates 300, 1200, 2400,
4800, 9600, 19200, 38400, 57600, 74880, 115200, 230400, 460800, 921600. -/
theorem C5_baud_rate_standard :
    SERIAL_BAUD_RATE ∈
      ([300, 1200, 2400, 4800, 9600, 19200, 38400, 57600, 74880, 115200, 230400,
        460800, 921600] : List Int) := by
  decide

/-- C6: every constant is defined exactly once: the header defines the 14
listed macro names, they are pairwise distinct, and every one of them is bound
to exactly one literal, which is the one expansion yields. -/
theorem C6_defined_exactly_once :
    definedNames =
        ["DEFAULT_MQTT_HOST", "DEFAULT_MQTT_USER", "DEFAULT_MQTT_PASS",
         "DEFAULT_MAX_WATER_TIME", "DEFAULT_DEVICE_PREFIX", "DEFAULT_WATER_SUFFIX",
         "MQTT_PORT", "WIFI_AP_NAME", "WIFI_AP_PASS", "WIFI_PORTAL_TIMEOUT",
         "NTP_SERVER", "NTP_UPDATE_INTERVAL", "SERIAL_BAUD_RATE", "LONG_CLICK_TIME"] ∧
      definedNames.length = 14 ∧
      definedNames.Nodup ∧
      (∀ n ∈ definedNames, ∃! v, (n, v) ∈ defaults_h) ∧
      (∀ n v, (n, v) ∈ defaults_h ↔ expand n = some v) := by
  have hlookup : ∀ n v, (n, v) ∈ defaults_h ↔ expand n = some v := by
    intro n v
    exact ⟨lookup_of_mem_of_nodup_keys defaults_h definedNames_nodup n v,
      mem_of_lookup defaults_h n v⟩
  refine ⟨definedNames_eq, rfl, definedNames_nodup, ?_, hlookup⟩
  intro n hn
  obtain ⟨⟨k, v⟩, hmem, hk⟩ := List.mem_map.mp hn
  simp only at hk
  subst hk
  exact ⟨v, hmem, fun w hw =>
    value_unique_of_nodup_keys defaults_h definedNames_nodup k w v hw hmem⟩

/-- C7: the numeric constants agree with the units their comments document:
the NTP update interval is 8 hours in milliseconds and the default maximum
watering time is 5 minutes in seconds. -/
theorem C7_units_agree :
    NTP_UPDATE_INTERVAL = 8 * 60 * 60 * 1000 ∧ DEFAULT_MAX_WATER_TIME = 5 * 60 := by
  refine ⟨?_, ?_⟩ <;> decide

/-- C8: the default MQTT host is a non-empty string: its length is at least 1. -/
theorem C8_mqtt_host_nonempty :
    1 ≤ DEFAULT_MQTT_HOST.length ∧ DEFAULT_MQTT_HOST ≠ "" := by
  refine ⟨?_, ?_⟩ <;> decide

/-- C9: with the compiled default, appending the water topic suffix is the
identity on topic names: every string followed by the default suffix is that
string. -/
theorem C9_suffix_identity (t : String) : t ++ DEFAULT_WATER_SUFFIX = t := by
  rw [DEFAULT_WATER_SUFFIX]
  exact String.append_empty t

/-- C10: every integer constant of the header (the six directives with an
integer literal) lies between 0 and 2^31 - 1, so it is representable as a
32-bit signed int without wrap-around: reducing it modulo 2^32 leaves it
unchanged and its sign bit (bit 31) is clear. -/
theorem C10_int_constants_fit_int32 :
    intDefines defaults_h =
        [("DEFAULT_MAX_WATER_TIME", DEFAULT_MAX_WATER_TIME), ("MQTT_PORT", MQTT_PORT),
         ("WIFI_PORTAL_TIMEOUT", WIFI_PORTAL_TIMEOUT),
         ("NTP_UPDATE_INTERVAL", NTP_UPDATE_INTERVAL),
         ("SERIAL_BAUD_RATE", SERIAL_BAUD_RATE), ("LONG_CLICK_TIME", LONG_CLICK_TIME)] ∧
      (∀ d ∈ intDefines defaults_h,
        0 ≤ d.2 ∧ d.2 ≤ 2 ^ 31 - 1 ∧ d.2 % 2 ^ 32 = d.2 ∧ d.2 / 2 ^ 31 % 2 = 0) := by
  have hlist : intDefines defaults_h =
      [("DEFAULT_MAX_WATER_TIME", DEFAULT_MAX_WATER_TIME), ("MQTT_PORT", MQTT_PORT),
       ("WIFI_PORTAL_TIMEOUT", WIFI_PORTAL_TIMEOUT),
       ("NTP_UPDATE_INTERVAL", NTP_UPDATE_INTERVAL),
       ("SERIAL_BAUD_RATE", SERIAL_BAUD_RATE), ("LONG_CLICK_TIME", LONG_CLICK_TIME)] := rfl
  refine ⟨hlist, ?_⟩
  intro d hd
  rw [hlist] at hd
  simp only [List.mem_cons, List.mem_singleton, List.not_mem_nil, or_false] at hd
  rcases hd with h | h | h | h | h | h <;> subst h <;>
    refine ⟨?_, ?_, ?_, ?_⟩ <;> decide

end ESPWatering
